import Mathlib

/-!
Shallow embedding of `era_5g_interface` (files `channels.py` and
`client_channels.py`): the `Channels` data-channel layer of the
era-5g interface, with its back-pressure admission control, per-stream
H.264 codec registry, send pipeline and receive/decode pipeline.

Python dictionaries keyed by `(eio_sid, event)` tuples are modelled as
association lists whose most recent binding shadows the older ones;
Python exceptions are modelled with `Except`, the error value carrying
the state at the moment of the raise (Python mutations before a raise
are kept); the socketio transport is modelled as a black box recording
every `emit` call; the external codecs (PyAV H.264, OpenCV JPEG) and the
external compression and JSON primitives are black boxes whose per-call
outcomes are supplied as explicit oracle arguments.
-/

namespace Era5G

/-- Byte strings (Python `bytes`) as lists of byte values. -/
abbrev Bytes := List Nat

/-- Decoded image frames (numpy arrays) are opaque blobs for this model. -/
abbrev Frame := List Nat

/-- `channels.py` line 23: the socketio namespace used for data. -/
def DATA_NAMESPACE : String := "/data"

/-- `channels.py` line 24: the default error event name. -/
def DATA_ERROR_EVENT : String := "data_error"

/-- `channels.py` lines 32-39: the closed channel-type enumeration. -/
inductive ChannelType where
  | JSON
  | JPEG
  | H264
  | JSON_LZ4
deriving DecidableEq

/-- `channels.py` lines 42-57 (`CallbackInfoClient` / `CallbackInfoServer`):
the per-event binding; only the channel type and error event name matter to
the pipelines, the user callback itself is outside this model. -/
structure CallbackInfo where
  type : ChannelType
  error_event : String
deriving DecidableEq

/-- H.264 encoder options (`encoding_options`), an opaque string map. -/
abbrev EncodingOptions := List (String × String)

/-- Modelled from the spec: `H264Encoder` (file `h264_encoder.py` is not
under `src/`). Per section 4.3 and the CodecState data model, the adapter
stores the stream geometry fixed at construction (`width()` / `height()`
return it), keeps the construction options, and carries a re-init counter
that starts at 0 on creation and increments on every `encoder_init`
re-initialization. -/
structure H264Encoder where
  width : Nat
  height : Nat
  options : Option EncodingOptions
  init_count : Nat
deriving DecidableEq

/-- Modelled from the spec: `H264Encoder.get_init_count`. -/
def H264Encoder.get_init_count (e : H264Encoder) : Nat := e.init_count

/-- Modelled from the spec: `H264Encoder.encoder_init` reconstructs the
native codec state in place, incrementing `init_count`. -/
def H264Encoder.encoder_init (e : H264Encoder) : H264Encoder :=
  { e with init_count := e.init_count + 1 }

/-- Modelled from the spec: `H264Decoder` (file `h264_decoder.py` is not
under `src/`). Per section 4.3 and the CodecState data model it stores the
geometry given at construction, a `last_timestamp` field (0 on a fresh
decoder, mutated by `image_decode`) and a re-init counter starting at 0. -/
structure H264Decoder where
  width : Nat
  height : Nat
  last_timestamp : Int
  init_count : Nat
deriving DecidableEq

/-- Modelled from the spec: `H264Decoder.get_init_count`. -/
def H264Decoder.get_init_count (d : H264Decoder) : Nat := d.init_count

/-- Modelled from the spec: `H264Decoder.decoder_init` reconstructs the
native codec state in place, incrementing `init_count`. -/
def H264Decoder.decoder_init (d : H264Decoder) : H264Decoder :=
  { d with init_count := d.init_count + 1 }

/-- The wire envelope (`channels.py` builds these as Python dicts; section 6
of the design lists exactly this field set). `metadata` is an opaque
payload. A field set to `none` is absent from the dict. -/
structure Envelope where
  timestamp : Option Int := none
  metadata : Option String := none
  frame : Option Bytes := none
  h264 : Option Bool := none
  width : Option Nat := none
  height : Option Nat := none
  error : Option String := none
deriving DecidableEq

/-- The normalized record `image_decode` returns on success
(`channels.py` lines 379-383). -/
structure DecodedRecord where
  frame : Frame
  timestamp : Int
  metadata : Option String
deriving DecidableEq

/-- The raw image (`np.ndarray`) handed to `send_image`: only its shape is
visible to `channels.py` (`frame.shape[0]` = height, `frame.shape[1]` =
width); pixel content is consumed by the black-box codecs. -/
structure RawFrame where
  height : Nat
  width : Nat
deriving DecidableEq

/-- The socketio transport, a black box: a `Client` has one implicit
connection with an outbound engineio queue of the given depth, a `Server`
resolves namespace sids to engineio sids and tracks per-socket queue depths
and connectedness. -/
inductive Sio where
  | client (sid : String) (qsize : Nat) (connected : Bool)
  | server (eio_sid_from_sid : String → String → String)
      (socket_qsize : String → Nat) (is_connected : String → String → Bool)

/-- One `sio.emit` call recorded against the transport: event name, payload
(an envelope, or LZ4 bytes on the JSON_LZ4 path) and the target sid
(`none` on the client side). -/
inductive Emission where
  | json (event : String) (data : Envelope) (target : Option String)
  | lz4 (event : String) (data : Bytes) (target : Option String)
deriving DecidableEq

/-- The Python exceptions `channels.py` can raise. `keyError` marks dict
accesses that Python would fault on (unreachable in the proved paths);
`createError` is the re-raised encoder construction exception. -/
inductive ChannelsError where
  | unknownChannelTypeUsed
  | backPressureException
  | valueError (msg : String)
  | connectionError (msg : String)
  | h264EncoderError (msg : String)
  | createError (msg : String)
  | keyError
deriving DecidableEq

/-- The mutable state of one `Channels` object (constructor, `channels.py`
lines 70-103) together with the transport black box and the emission log.
`lz4_payload_of` is the composite external primitive
`compress(bytes(ujson.dumps(data), utf-8))` used by the JSON_LZ4 branch of
`send_data` (both factors are external libraries). -/
structure ChannelsState where
  sio : Sio
  callbacks_info : String → CallbackInfo
  back_pressure_size : Option Nat
  recreate_h264_attempts_count : Nat
  stats : Bool
  sizes : List Nat
  decoders : List ((String × String) × H264Decoder)
  encoders : List ((String × String) × H264Encoder)
  lz4_payload_of : Envelope → Bytes
  emitted : List Emission

/-- Lookup in a dict modelled as an association list (newest binding
first). -/
def dict_get {α : Type} (k : String × String) :
    List ((String × String) × α) → Option α
  | [] => none
  | (k2, v) :: rest => if k2 = k then some v else dict_get k rest

/-- Dict assignment `d[k] = v`: the new binding shadows any older one. -/
def dict_set {α : Type} (k : String × String) (v : α)
    (l : List ((String × String) × α)) : List ((String × String) × α) :=
  (k, v) :: l

/-- `channels.py` lines 91-92: the constructor rejects a configured
back-pressure size below 1. -/
def back_pressure_size_valid (back_pressure_size : Option Nat) : Bool :=
  match back_pressure_size with
  | none => true
  | some n => decide (1 ≤ n)

/-- `Channels.get_client_eio_sid` (`channels.py` lines 255-271): the client
side returns its own sid; the server side requires `sid` and resolves it
through the manager. -/
def get_client_eio_sid (sio : Sio) (sid : Option String)
    (ns : String) : Except ChannelsError String :=
  match sio with
  | .client csid _ _ => .ok csid
  | .server eio_sid_from_sid _ _ =>
    match sid with
    | none => .error (.valueError "sid has to be set for server.")
    | some s => .ok (eio_sid_from_sid s ns)

/-- `Channels._apply_back_pressure` (`channels.py` lines 111-123): when a
back-pressure size is configured and the relevant outbound queue depth
strictly exceeds it, raise `BackPressureException`. -/
def apply_back_pressure (st : ChannelsState) (sid : Option String) :
    Except ChannelsError Unit :=
  match st.back_pressure_size with
  | none => .ok ()
  | some bp =>
    match st.sio with
    | .client _ qsize _ =>
      if bp < qsize then .error .backPressureException else .ok ()
    | .server eio_sid_from_sid socket_qsize _ =>
      match sid with
      | none => .error (.valueError "sid has to be set for server.")
      | some s =>
        if bp < socket_qsize (eio_sid_from_sid s DATA_NAMESPACE) then
          .error .backPressureException
        else .ok ()

/-- The outbound queue depth `_apply_back_pressure` would consult: the
client queue, or the server-side socket queue of the resolved eio sid. -/
def outbound_depth (sio : Sio) (sid : Option String) : Option Nat :=
  match sio with
  | .client _ qsize _ => some qsize
  | .server eio_sid_from_sid socket_qsize _ =>
    match sid with
    | none => none
    | some s => some (socket_qsize (eio_sid_from_sid s DATA_NAMESPACE))

/-- A computation that may raise, carrying the state both on success and at
the moment of the raise. -/
abbrev CResult (α : Type) :=
  Except (ChannelsError × ChannelsState) (α × ChannelsState)

/-- `Channels.send_data` (`channels.py` lines 208-253). Order of the
source: reject channel types other than JSON / JSON_LZ4; if
`can_be_dropped`, apply back pressure; LZ4-compress on the JSON_LZ4 path;
emit (the client-side wait-for-reconnection loop always falls through to
the emit and is timing only, so it does not appear in the state model; the
server side requires `sid` and a connected client). -/
def send_data (st : ChannelsState) (data : Envelope) (event : String)
    (channel_type : ChannelType) (sid : Option String)
    (can_be_dropped : Bool) : CResult Unit :=
  if channel_type ≠ .JSON ∧ channel_type ≠ .JSON_LZ4 then
    .error (.unknownChannelTypeUsed, st)
  else
    match (if can_be_dropped then apply_back_pressure st sid else .ok ()) with
    | .error e => .error (e, st)
    | .ok _ =>
      match st.sio with
      | .client _ _ _ =>
        let new_data : Emission :=
          if channel_type = .JSON_LZ4 then
            .lz4 event (st.lz4_payload_of data) none
          else .json event data none
        .ok ((), { st with emitted := new_data :: st.emitted })
      | .server _ _ is_connected =>
        match sid with
        | none => .error (.valueError "sid has to be set for server.", st)
        | some s =>
          if is_connected s DATA_NAMESPACE then
            let new_data : Emission :=
              if channel_type = .JSON_LZ4 then
                .lz4 event (st.lz4_payload_of data) (some s)
              else .json event data (some s)
            .ok ((), { st with emitted := new_data :: st.emitted })
          else
            .error (.connectionError
              ("Client with " ++ DATA_NAMESPACE ++ " sid " ++ s ++
                " is not connected to server."), st)

/-- Per-call outcomes of the black boxes `send_image` consults: the
high-resolution clock `time.perf_counter_ns()`, the `H264Encoder`
constructor (`some msg` means it raised, `msg` its repr), the result of
`encode_ndarray` on this frame (`Except` error means `H264EncoderError`),
whether `last_frame_is_keyframe()` reports a keyframe, and the bytes
`cv2.imencode` produces on the JPEG path. -/
structure EncodeEnv where
  now : Int
  create_error : Option String
  encode_result : Except String Bytes
  is_key_frame : Bool
  jpeg_bytes : Bytes

/-- `Channels.send_image` (`channels.py` lines 125-206), translated branch
by branch. The stats branch (lines 189-192) appends the encoded length
when `stats` is set. On an `H264EncoderError` the handler (lines 199-206)
re-initializes the encoder when its init count is under
`recreate_h264_attempts_count` and otherwise re-raises. -/
def send_image (st : ChannelsState) (env : EncodeEnv) (frame : RawFrame)
    (event : String) (channel_type : ChannelType) (timestamp : Option Int)
    (metadata : Option String) (sid : Option String) (can_be_dropped : Bool)
    (encoding_options : Option EncodingOptions) : CResult Unit :=
  if channel_type ≠ .JPEG ∧ channel_type ≠ .H264 then
    .error (.unknownChannelTypeUsed, st)
  else
    let ts : Int := timestamp.getD env.now
    let data : Envelope := { timestamp := some ts, metadata := metadata }
    match get_client_eio_sid st.sio sid DATA_NAMESPACE with
    | .error e => .error (e, st)
    | .ok eio_sid =>
      let encoder_id := (eio_sid, event)
      match
        (if channel_type = .H264 ∧ dict_get encoder_id st.encoders = none then
          match env.create_error with
          | some msg => .error (.createError msg, st)
          | none =>
            .ok { st with encoders := (dict_set encoder_id
              ⟨frame.width, frame.height, encoding_options, 0⟩ st.encoders) }
        else (.ok st : Except (ChannelsError × ChannelsState) ChannelsState))
      with
      | .error e => .error e
      | .ok st1 =>
        if channel_type = .H264 then
          match dict_get encoder_id st1.encoders with
          | none => .error (.keyError, st1)
          | some enc =>
            match env.encode_result with
            | .error emsg =>
              -- except H264EncoderError (lines 199-206)
              if enc.get_init_count < st1.recreate_h264_attempts_count then
                .ok ((), { st1 with encoders :=
                  (dict_set encoder_id enc.encoder_init st1.encoders) })
              else .error (.h264EncoderError emsg, st1)
            | .ok frame_encoded =>
              let data2 : Envelope :=
                { data with h264 := some true, width := some enc.width,
                            height := some enc.height,
                            frame := some frame_encoded }
              let is_key_frame := env.is_key_frame
              let st2 := if st1.stats then
                  { st1 with sizes := st1.sizes ++ [frame_encoded.length] }
                else st1
              send_data st2 data2 event .JSON sid
                (can_be_dropped && !is_key_frame)
        else
          -- JPEG path: is_key_frame keeps its initial False value
          let frame_encoded := env.jpeg_bytes
          let data2 : Envelope := { data with frame := some frame_encoded }
          let st2 := if st1.stats then
              { st1 with sizes := st1.sizes ++ [frame_encoded.length] }
            else st1
          send_data st2 data2 event .JSON sid (can_be_dropped && !false)

/-- The `{"timestamp": ..., "error": ...}` envelopes `image_decode` and
`data_lz4_decode` send to the configured error event. -/
def error_envelope (ts : Int) (msg : String) : Envelope :=
  { timestamp := some ts, error := some msg }

/-- The ordering-error text of `channels.py` lines 343-344 (an f-string in
the source). -/
def older_timestamp_message (t last : Int) : String :=
  "Received frame with older timestamp: " ++ toString t ++
    ", last_timestamp: " ++ toString last ++ ", diff: " ++ toString (t - last)

/-- Per-call outcomes of the black boxes `image_decode` consults: the
`H264Decoder` constructor (`some msg` means it raised), the result of
`decode_packet_data` (`Except` error means `H264DecoderError`), and the
result of `cv2.imdecode` on the JPEG path. -/
structure DecodeEnv where
  create_error : Option String
  decode_result : Except String Frame
  imdecode_result : Except String Frame

/-- Second half of `Channels.image_decode` (`channels.py` lines 333-383):
the timestamp ordering block (lines 333-350), the decode block (lines
352-377) and the assembly of the decoded record (lines 379-383).
`timestamp` is the value extracted at lines 292-296 and `decoder_id` the
key resolved at lines 307-308. -/
def image_decode_rest (st : ChannelsState) (env : DecodeEnv)
    (data : Envelope) (event : String) (sid : Option String)
    (timestamp : Int) (decoder_id : String × String) :
    CResult (Option DecodedRecord) :=
  -- lines 333-350: ordering check against the stored last_timestamp
  let ordering_step : Except (ChannelsError × ChannelsState)
      (ChannelsState ⊕ ChannelsState) :=
    match dict_get decoder_id st.decoders with
    | some dec =>
      if timestamp - dec.last_timestamp < 0 then
        match send_data st
            (error_envelope timestamp
              (older_timestamp_message timestamp dec.last_timestamp))
            (st.callbacks_info event).error_event .JSON sid false with
        | .error e => .error e
        | .ok (_, st1) => .ok (Sum.inl st1)
      else
        .ok (Sum.inr { st with decoders := (dict_set decoder_id
          { dec with last_timestamp := timestamp } st.decoders) })
    | none => .ok (Sum.inr st)
  match ordering_step with
  | .error e => .error e
  | .ok (Sum.inl stE) => .ok (none, stE)
  | .ok (Sum.inr st1) =>
    -- lines 352-377: decode through the H.264 decoder or cv2.imdecode
    match dict_get decoder_id st1.decoders with
    | some dec2 =>
      match env.decode_result with
      | .error emsg =>
        -- except H264DecoderError (lines 355-366)
        let st2 :=
          if dec2.get_init_count < st1.recreate_h264_attempts_count then
            { st1 with decoders :=
              (dict_set decoder_id dec2.decoder_init st1.decoders) }
          else st1
        match send_data st2
            (error_envelope timestamp ("H.264 decoder error: " ++ emsg))
            (st2.callbacks_info event).error_event .JSON sid false with
        | .error e => .error e
        | .ok (_, st3) => .ok (none, st3)
      | .ok frame_decoded =>
        .ok (some { frame := frame_decoded, timestamp := timestamp,
                    metadata := data.metadata }, st1)
    | none =>
      match env.imdecode_result with
      | .error emsg =>
        match send_data st1
            (error_envelope timestamp ("Failed to decode frame data: " ++ emsg))
            (st1.callbacks_info event).error_event .JSON sid false with
        | .error e => .error e
        | .ok (_, st2) => .ok (none, st2)
      | .ok frame_decoded =>
        .ok (some { frame := frame_decoded, timestamp := timestamp,
                    metadata := data.metadata }, st1)

/-- `Channels.image_decode` (`channels.py` lines 283-383): extract the
timestamp (default 0 when absent, lines 292-296), reject envelopes without
a frame (lines 298-305), lazily create the H.264 decoder for this stream
(lines 307-331: missing geometry or a constructor failure sends an error
envelope and returns `none`), then run the ordering check and the decode
(`image_decode_rest`). -/
def image_decode (st : ChannelsState) (env : DecodeEnv) (data : Envelope)
    (event : String) (sid : Option String) :
    CResult (Option DecodedRecord) :=
  let timestamp : Int := data.timestamp.getD 0
  if data.frame = none then
    match send_data st
        (error_envelope timestamp "Data does not contain frame.")
        (st.callbacks_info event).error_event .JSON sid false with
    | .error e => .error e
    | .ok (_, st1) => .ok (none, st1)
  else
    match get_client_eio_sid st.sio sid DATA_NAMESPACE with
    | .error e => .error (e, st)
    | .ok eio_sid =>
      let decoder_id := (eio_sid, event)
      if (st.callbacks_info event).type = .H264 ∧
          dict_get decoder_id st.decoders = none then
        if data.width = none ∨ data.height = none then
          match send_data st
              (error_envelope timestamp
                "Data does not contain width or height, it is mandatory for H.264.")
              (st.callbacks_info event).error_event .JSON sid false with
          | .error e => .error e
          | .ok (_, st1) => .ok (none, st1)
        else
          match env.create_error with
          | some msg =>
            match send_data st
                (error_envelope timestamp
                  ("Cannot create H.264 decoder: " ++ msg))
                (st.callbacks_info event).error_event .JSON sid false with
            | .error e => .error e
            | .ok (_, st1) => .ok (none, st1)
          | none =>
            image_decode_rest
              { st with decoders := (dict_set decoder_id
                ⟨data.width.getD 0, data.height.getD 0, 0, 0⟩ st.decoders) }
              env data event sid timestamp decoder_id
      else
        image_decode_rest st env data event sid timestamp decoder_id

/-- The send-side JSON_LZ4 payload transformation (`channels.py` line 238):
`compress(bytes(ujson.dumps(data), utf-8))`. The serializer and the
compressor are external black boxes, passed as parameters. -/
def json_lz4_payload {α : Type} (dumps : α → Bytes)
    (compress : Bytes → Bytes) (data : α) : Bytes :=
  compress (dumps data)

/-- The value computed by `Channels.data_lz4_decode` (`channels.py` lines
385-406): `ujson.loads(decompress(data))`. A raise in either external
primitive is modelled by `none` (the source then sends an error envelope to
the configured error event and returns `None`). -/
def data_lz4_decode {α : Type} (loads : Bytes → Option α)
    (decompress : Bytes → Option Bytes) (data : Bytes) : Option α :=
  (decompress data).bind loads

/-! ## Claims -/

/-- C1. The claim states that when back pressure is enabled and the
outbound queue depth exceeds `back_pressure_size`, a `can_be_dropped=true`
`send_data` drops the payload silently with no exception raised to the
caller. The code instead raises `BackPressureException` out of `send_data`
(`_apply_back_pressure` raises and `send_data` has no handler): at queue
depth 6 with threshold 5 the droppable send returns the exception, not a
silent success. -/
theorem C1_counterexample :
    send_data
      ⟨.client "c" 6 true, fun _ => ⟨.JSON, DATA_ERROR_EVENT⟩, some 5, 5,
        false, [], [], [], fun _ => [], []⟩
      { timestamp := some 1 } "ev" .JSON none true
      = .error (.backPressureException,
        ⟨.client "c" 6 true, fun _ => ⟨.JSON, DATA_ERROR_EVENT⟩, some 5, 5,
          false, [], [], [], fun _ => [], []⟩) := rfl

/-- C1 (amended). For every `send_data` call with `can_be_dropped=true`,
when back pressure is enabled and the outbound queue depth exceeds the
configured `back_pressure_size`, nothing is emitted to the transport and a
`BackPressureException` is raised to the caller (the state, including the
emission log, is left unchanged at the raise). -/
theorem C1_back_pressure_drop_raises (st : ChannelsState)
    (data : Envelope) (event : String) (sid : Option String) (n d : Nat)
    (hbp : st.back_pressure_size = some n)
    (hd : outbound_depth st.sio sid = some d) (hgt : n < d) :
    send_data st data event .JSON sid true =
      .error (.backPressureException, st) := by
  cases hsio : st.sio with
  | client csid qq cc =>
    rw [hsio] at hd
    simp only [outbound_depth, Option.some.injEq] at hd
    subst hd
    simp [send_data, apply_back_pressure, hbp, hsio, hgt]
  | server f qs ic =>
    rw [hsio] at hd
    cases sid with
    | none => simp [outbound_depth] at hd
    | some s =>
      simp only [outbound_depth, Option.some.injEq] at hd
      simp [send_data, apply_back_pressure, hbp, hsio, hd, hgt]

/-- C1 witness: at queue depth 7 and threshold 5 the droppable send raises
`BackPressureException` and leaves the state unchanged. -/
theorem C1_witness :
    send_data
      ⟨.client "c" 7 true, fun _ => ⟨.JSON, DATA_ERROR_EVENT⟩, some 5, 5,
        false, [], [], [], fun _ => [], []⟩
      { timestamp := some 2 } "ev" .JSON none true
      = .error (.backPressureException,
        ⟨.client "c" 7 true, fun _ => ⟨.JSON, DATA_ERROR_EVENT⟩, some 5, 5,
          false, [], [], [], fun _ => [], []⟩) :=
  C1_back_pressure_drop_raises _ _ "ev" none 5 7 rfl rfl (by decide)

/-- C6. The back-pressure check admits exactly when back pressure is
disabled or the outbound queue depth does not exceed the threshold, it
raises `BackPressureException` exactly when the depth is strictly greater
than the configured threshold, and a non-droppable `send_data` reaches the
transport regardless of the depth (client side shown, where the emission
log records the emit). -/
theorem C6_back_pressure_admission (st : ChannelsState)
    (sid : Option String) (d : Nat)
    (hd : outbound_depth st.sio sid = some d) :
    (apply_back_pressure st sid = .ok () ↔
      ∀ n, st.back_pressure_size = some n → d ≤ n) ∧
    (apply_back_pressure st sid = .error .backPressureException ↔
      ∃ n, st.back_pressure_size = some n ∧ n < d) ∧
    (∀ (data : Envelope) (event : String) (csid : String) (q : Nat)
      (conn : Bool), st.sio = .client csid q conn →
      send_data st data event .JSON sid false =
        .ok ((), { st with emitted := Emission.json event data none ::
          st.emitted })) := by
  refine ⟨?_, ?_, ?_⟩
  · cases hbp : st.back_pressure_size with
    | none => simp [apply_back_pressure, hbp]
    | some n0 =>
      cases hsio : st.sio with
      | client csid qq cc =>
        rw [hsio] at hd
        simp only [outbound_depth, Option.some.injEq] at hd
        subst hd
        by_cases hlt : n0 < qq
        · first
          | (simp [apply_back_pressure, hbp, hsio, hlt]; omega)
          | simp [apply_back_pressure, hbp, hsio, hlt]
        · first
          | (simp [apply_back_pressure, hbp, hsio, hlt]; omega)
          | simp [apply_back_pressure, hbp, hsio, hlt]
      | server f qs ic =>
        rw [hsio] at hd
        cases sid with
        | none => simp [outbound_depth] at hd
        | some s =>
          simp only [outbound_depth, Option.some.injEq] at hd
          by_cases hlt : n0 < d
          · first
            | (simp [apply_back_pressure, hbp, hsio, hd, hlt]; omega)
            | simp [apply_back_pressure, hbp, hsio, hd, hlt]
          · first
            | (simp [apply_back_pressure, hbp, hsio, hd, hlt]; omega)
            | simp [apply_back_pressure, hbp, hsio, hd, hlt]
  · cases hbp : st.back_pressure_size with
    | none => simp [apply_back_pressure, hbp]
    | some n0 =>
      cases hsio : st.sio with
      | client csid qq cc =>
        rw [hsio] at hd
        simp only [outbound_depth, Option.some.injEq] at hd
        subst hd
        by_cases hlt : n0 < qq
        · first
          | (simp [apply_back_pressure, hbp, hsio, hlt]; omega)
          | simp [apply_back_pressure, hbp, hsio, hlt]
        · first
          | (simp [apply_back_pressure, hbp, hsio, hlt]; omega)
          | simp [apply_back_pressure, hbp, hsio, hlt]
      | server f qs ic =>
        rw [hsio] at hd
        cases sid with
        | none => simp [outbound_depth] at hd
        | some s =>
          simp only [outbound_depth, Option.some.injEq] at hd
          by_cases hlt : n0 < d
          · first
            | (simp [apply_back_pressure, hbp, hsio, hd, hlt]; omega)
            | simp [apply_back_pressure, hbp, hsio, hd, hlt]
          · first
            | (simp [apply_back_pressure, hbp, hsio, hd, hlt]; omega)
            | simp [apply_back_pressure, hbp, hsio, hd, hlt]
  · intro data event csid qq cc hsio
    simp [send_data, hsio]

/-- C6 witness: with threshold 5 and queue depth 9 the check raises
`BackPressureException`; with queue depth 9 a non-droppable send still
reaches the transport. -/
theorem C6_witness :
    apply_back_pressure
      ⟨.client "c" 9 true, fun _ => ⟨.JSON, DATA_ERROR_EVENT⟩, some 5, 5,
        false, [], [], [], fun _ => [], []⟩ none
      = .error .backPressureException ∧
    send_data
      ⟨.client "c" 9 true, fun _ => ⟨.JSON, DATA_ERROR_EVENT⟩, some 5, 5,
        false, [], [], [], fun _ => [], []⟩
      { timestamp := some 3 } "ev" .JSON none false
      = .ok ((),
        ⟨.client "c" 9 true, fun _ => ⟨.JSON, DATA_ERROR_EVENT⟩, some 5, 5,
          false, [], [], [], fun _ => [],
          [Emission.json "ev" { timestamp := some 3 } none]⟩) :=
  ⟨((C6_back_pressure_admission
      ⟨.client "c" 9 true, fun _ => ⟨.JSON, DATA_ERROR_EVENT⟩, some 5, 5,
        false, [], [], [], fun _ => [], []⟩ none 9 rfl).2.1).mpr
      ⟨5, rfl, by decide⟩,
    (C6_back_pressure_admission
      ⟨.client "c" 9 true, fun _ => ⟨.JSON, DATA_ERROR_EVENT⟩, some 5, 5,
        false, [], [], [], fun _ => [], []⟩ none 9 rfl).2.2
      { timestamp := some 3 } "ev" "c" 9 true rfl⟩

/-- C5. For every `send_image` call with channel type H264 whose encoder
reports a keyframe, the envelope is handed to `send_data` with
drop-eligibility forced to false — the emission happens for every caller
`can_be_dropped` value and every queue depth, with no back-pressure check —
and the envelope carries `h264=true` and the geometry of the stream
encoder. -/
theorem C5_keyframe_not_droppable (st : ChannelsState) (env : EncodeEnv)
    (frame : RawFrame) (event : String) (ts : Int) (md : Option String)
    (csid : String) (q : Nat) (conn : Bool) (enc : H264Encoder) (b : Bytes)
    (cbd : Bool) (opts : Option EncodingOptions)
    (hsio : st.sio = .client csid q conn)
    (henc : dict_get (csid, event) st.encoders = some enc)
    (hok : env.encode_result = .ok b)
    (hkey : env.is_key_frame = true)
    (hstats : st.stats = false) :
    send_image st env frame event .H264 (some ts) md none cbd opts =
      .ok ((), { st with emitted := (Emission.json event
        { timestamp := some ts, metadata := md, h264 := some true,
          width := some enc.width, height := some enc.height,
          frame := some b } none :: st.emitted) }) := by
  simp [send_image, get_client_eio_sid, hsio, henc, hok, hkey, hstats,
    send_data]

/-- C5 witness: a 640x480 H.264 stream with queue depth 9 over threshold 5
still emits the keyframe envelope (with `h264=true`, width 640, height
480) although the caller passed `can_be_dropped = true`. -/
theorem C5_witness :
    send_image
      ⟨.client "c" 9 true, fun _ => ⟨.H264, DATA_ERROR_EVENT⟩, some 5, 5,
        false, [], [], [(("c", "ev"), ⟨640, 480, none, 0⟩)], fun _ => [], []⟩
      ⟨0, none, .ok [7], true, []⟩ ⟨480, 640⟩ "ev" .H264 (some 11) none none
      true none
      = .ok ((),
        ⟨.client "c" 9 true, fun _ => ⟨.H264, DATA_ERROR_EVENT⟩, some 5, 5,
          false, [], [], [(("c", "ev"), ⟨640, 480, none, 0⟩)], fun _ => [],
          [Emission.json "ev"
            { timestamp := some 11, metadata := none, h264 := some true,
              width := some 640, height := some 480, frame := some [7] }
            none]⟩) :=
  C5_keyframe_not_droppable
    ⟨.client "c" 9 true, fun _ => ⟨.H264, DATA_ERROR_EVENT⟩, some 5, 5,
      false, [], [], [(("c", "ev"), ⟨640, 480, none, 0⟩)], fun _ => [], []⟩
    ⟨0, none, .ok [7], true, []⟩ ⟨480, 640⟩ "ev" 11 none "c" 9 true
    ⟨640, 480, none, 0⟩ [7] true none rfl rfl rfl rfl rfl

/-- C7. Encoder creation is idempotent per StreamKey: the first H264
`send_image` for a key creates the encoder from that call geometry and
options; a second call with arbitrary other geometry and options leaves the
encoder registry untouched (same adapter state) and even the emitted
envelope still carries the first call geometry. Stated on a client-side
channel with back pressure disabled and stats off, so that both sends
reach the transport. -/
theorem C7_encoder_idempotent (st : ChannelsState) (env1 env2 : EncodeEnv)
    (frame1 frame2 : RawFrame) (event : String) (ts1 ts2 : Int)
    (md1 md2 : Option String) (cbd1 cbd2 : Bool)
    (opts1 opts2 : Option EncodingOptions) (csid : String) (q : Nat)
    (conn : Bool) (b1 b2 : Bytes)
    (hsio : st.sio = .client csid q conn)
    (hnone : dict_get (csid, event) st.encoders = none)
    (hc1 : env1.create_error = none)
    (he1 : env1.encode_result = .ok b1)
    (hk1 : env1.is_key_frame = false)
    (he2 : env2.encode_result = .ok b2)
    (hk2 : env2.is_key_frame = false)
    (hbp : st.back_pressure_size = none)
    (hstats : st.stats = false) :
    send_image st env1 frame1 event .H264 (some ts1) md1 none cbd1 opts1 =
      .ok ((), { st with
        encoders := (dict_set (csid, event)
          ⟨frame1.width, frame1.height, opts1, 0⟩ st.encoders),
        emitted := (Emission.json event
          { timestamp := some ts1, metadata := md1, h264 := some true,
            width := some frame1.width, height := some frame1.height,
            frame := some b1 } none :: st.emitted) }) ∧
    (∀ (st1 : ChannelsState),
      st1 = { st with
        encoders := (dict_set (csid, event)
          ⟨frame1.width, frame1.height, opts1, 0⟩ st.encoders),
        emitted := (Emission.json event
          { timestamp := some ts1, metadata := md1, h264 := some true,
            width := some frame1.width, height := some frame1.height,
            frame := some b1 } none :: st.emitted) } →
      send_image st1 env2 frame2 event .H264 (some ts2) md2 none cbd2 opts2 =
        .ok ((), { st1 with emitted := (Emission.json event
          { timestamp := some ts2, metadata := md2, h264 := some true,
            width := some frame1.width, height := some frame1.height,
            frame := some b2 } none :: st1.emitted) })) := by
  constructor
  · simp [send_image, get_client_eio_sid, hsio, hnone, hc1, he1, hk1,
      hstats, send_data, apply_back_pressure, hbp, dict_get, dict_set]
  · intro st1 hst1
    subst hst1
    simp [send_image, get_client_eio_sid, hsio, he2, hk2, hstats,
      send_data, apply_back_pressure, hbp, dict_get, dict_set]

/-- C7 witness: creating a 640x480 encoder on the first call, then sending
a 320x200 frame with different options on the same stream: the registry
still holds the 640x480 adapter with the first call options and the second
envelope still advertises 640x480. -/
theorem C7_witness :
    send_image
      ⟨.client "c" 0 true, fun _ => ⟨.H264, DATA_ERROR_EVENT⟩, none, 5,
        false, [], [], [], fun _ => [], []⟩
      ⟨0, none, .ok [1], false, []⟩ ⟨480, 640⟩ "ev" .H264 (some 1) none none
      true none
      = .ok ((),
        ⟨.client "c" 0 true, fun _ => ⟨.H264, DATA_ERROR_EVENT⟩, none, 5,
          false, [], [], [(("c", "ev"), ⟨640, 480, none, 0⟩)], fun _ => [],
          [Emission.json "ev"
            { timestamp := some 1, metadata := none, h264 := some true,
              width := some 640, height := some 480, frame := some [1] }
            none]⟩) ∧
    send_image
      ⟨.client "c" 0 true, fun _ => ⟨.H264, DATA_ERROR_EVENT⟩, none, 5,
        false, [], [], [(("c", "ev"), ⟨640, 480, none, 0⟩)], fun _ => [],
        [Emission.json "ev"
          { timestamp := some 1, metadata := none, h264 := some true,
            width := some 640, height := some 480, frame := some [1] }
          none]⟩
      ⟨0, none, .ok [2], false, []⟩ ⟨200, 320⟩ "ev" .H264 (some 2) none none
      true (some [("crf", "0")])
      = .ok ((),
        ⟨.client "c" 0 true, fun _ => ⟨.H264, DATA_ERROR_EVENT⟩, none, 5,
          false, [], [], [(("c", "ev"), ⟨640, 480, none, 0⟩)], fun _ => [],
          [Emission.json "ev"
            { timestamp := some 2, metadata := none, h264 := some true,
              width := some 640, height := some 480, frame := some [2] }
            none,
          Emission.json "ev"
            { timestamp := some 1, metadata := none, h264 := some true,
              width := some 640, height := some 480, frame := some [1] }
            none]⟩) := by
  have h := C7_encoder_idempotent
    ⟨.client "c" 0 true, fun _ => ⟨.H264, DATA_ERROR_EVENT⟩, none, 5,
      false, [], [], [], fun _ => [], []⟩
    ⟨0, none, .ok [1], false, []⟩ ⟨0, none, .ok [2], false, []⟩
    ⟨480, 640⟩ ⟨200, 320⟩ "ev" 1 2 none none true true none
    (some [("crf", "0")]) "c" 0 true [1] [2]
    rfl rfl rfl rfl rfl rfl rfl rfl rfl
  exact ⟨h.1, h.2 _ rfl⟩

/-- C2. The claim states that under the re-init ceiling an encode error is
propagated upward to the caller, and that at or over the ceiling a decode
error is propagated to the caller as stream-fatal. The code does neither:
with an encoder at init count 0 (under the ceiling 5) `send_image` swallows
the `H264EncoderError`, re-initializes and returns normally, and with a
decoder at init count 5 (the ceiling) `image_decode` sends an error
envelope and returns none instead of raising. -/
theorem C2_counterexample :
    send_image
      ⟨.client "c" 0 true, fun _ => ⟨.H264, DATA_ERROR_EVENT⟩, some 5, 5,
        false, [], [], [(("c", "ev"), ⟨640, 480, none, 0⟩)], fun _ => [], []⟩
      ⟨0, none, .error "boom", false, []⟩ ⟨480, 640⟩ "ev" .H264 (some 1)
      none none true none
      = .ok ((),
        ⟨.client "c" 0 true, fun _ => ⟨.H264, DATA_ERROR_EVENT⟩, some 5, 5,
          false, [], [],
          [(("c", "ev"), ⟨640, 480, none, 1⟩),
            (("c", "ev"), ⟨640, 480, none, 0⟩)], fun _ => [], []⟩) ∧
    image_decode
      ⟨.client "c" 0 true, fun _ => ⟨.H264, DATA_ERROR_EVENT⟩, some 5, 5,
        false, [], [(("c", "ev"), ⟨640, 480, 0, 5⟩)], [], fun _ => [], []⟩
      ⟨none, .error "boom", .ok []⟩
      { timestamp := some 1, frame := some [0] } "ev" none
      = .ok (none,
        ⟨.client "c" 0 true, fun _ => ⟨.H264, DATA_ERROR_EVENT⟩, some 5, 5,
          false, [],
          [(("c", "ev"), ⟨640, 480, 1, 5⟩),
            (("c", "ev"), ⟨640, 480, 0, 5⟩)], [], fun _ => [],
          [Emission.json DATA_ERROR_EVENT
            (error_envelope 1 "H.264 decoder error: boom") none]⟩) :=
  ⟨rfl, rfl⟩

/-- C2 (amended). On an H.264 codec error: for encode (`send_image`), if
the encoder init count is under `recreate_h264_attempts_count` the encoder
is re-initialized and the frame is silently lost (no exception, nothing
emitted); at or over the ceiling the `H264EncoderError` is raised to the
caller. For decode (`image_decode`), if the decoder init count is under
the ceiling the decoder is re-initialized; in every case a decode-error
envelope is sent to the channel error event and none is returned — the
decode error is never raised to the caller (client side shown). -/
theorem C2_codec_error_recovery (st : ChannelsState) (csid : String)
    (q : Nat) (conn : Bool) (event : String)
    (hsio : st.sio = .client csid q conn) :
    (∀ (env : EncodeEnv) (frame : RawFrame) (ts : Option Int)
      (md : Option String) (cbd : Bool) (opts : Option EncodingOptions)
      (enc : H264Encoder) (emsg : String),
      dict_get (csid, event) st.encoders = some enc →
      env.encode_result = .error emsg →
      enc.init_count < st.recreate_h264_attempts_count →
      send_image st env frame event .H264 ts md none cbd opts =
        .ok ((), { st with encoders := (dict_set (csid, event)
          (H264Encoder.encoder_init enc) st.encoders) })) ∧
    (∀ (env : EncodeEnv) (frame : RawFrame) (ts : Option Int)
      (md : Option String) (cbd : Bool) (opts : Option EncodingOptions)
      (enc : H264Encoder) (emsg : String),
      dict_get (csid, event) st.encoders = some enc →
      env.encode_result = .error emsg →
      ¬ enc.init_count < st.recreate_h264_attempts_count →
      send_image st env frame event .H264 ts md none cbd opts =
        .error (.h264EncoderError emsg, st)) ∧
    (∀ (env : DecodeEnv) (data : Envelope) (f : Bytes)
      (dec : H264Decoder) (emsg : String),
      data.frame = some f →
      dict_get (csid, event) st.decoders = some dec →
      ¬ data.timestamp.getD 0 - dec.last_timestamp < 0 →
      env.decode_result = .error emsg →
      dec.init_count < st.recreate_h264_attempts_count →
      image_decode st env data event none =
        .ok (none, { st with
          decoders := (dict_set (csid, event)
            (H264Decoder.decoder_init
              { dec with last_timestamp := data.timestamp.getD 0 })
            (dict_set (csid, event)
              { dec with last_timestamp := data.timestamp.getD 0 }
              st.decoders)),
          emitted := (Emission.json (st.callbacks_info event).error_event
            (error_envelope (data.timestamp.getD 0)
              ("H.264 decoder error: " ++ emsg)) none :: st.emitted) })) ∧
    (∀ (env : DecodeEnv) (data : Envelope) (f : Bytes)
      (dec : H264Decoder) (emsg : String),
      data.frame = some f →
      dict_get (csid, event) st.decoders = some dec →
      ¬ data.timestamp.getD 0 - dec.last_timestamp < 0 →
      env.decode_result = .error emsg →
      ¬ dec.init_count < st.recreate_h264_attempts_count →
      image_decode st env data event none =
        .ok (none, { st with
          decoders := (dict_set (csid, event)
            { dec with last_timestamp := data.timestamp.getD 0 }
            st.decoders),
          emitted := (Emission.json (st.callbacks_info event).error_event
            (error_envelope (data.timestamp.getD 0)
              ("H.264 decoder error: " ++ emsg)) none :: st.emitted) })) := by
  refine ⟨?_, ?_, ?_, ?_⟩
  · intro env frame ts md cbd opts enc emsg henc herr hlt
    simp [send_image, get_client_eio_sid, hsio, henc, herr,
      H264Encoder.get_init_count, hlt]
  · intro env frame ts md cbd opts enc emsg henc herr hge
    simp [send_image, get_client_eio_sid, hsio, henc, herr,
      H264Encoder.get_init_count, hge]
  · intro env data f dec emsg hf hdec hts herr hlt
    simp [image_decode, image_decode_rest, get_client_eio_sid, hsio, hf,
      hdec, hts, herr, dict_get, dict_set, H264Decoder.get_init_count, hlt,
      send_data]
  · intro env data f dec emsg hf hdec hts herr hge
    simp [image_decode, image_decode_rest, get_client_eio_sid, hsio, hf,
      hdec, hts, herr, dict_get, dict_set, H264Decoder.get_init_count, hge,
      send_data]

/-- C2 witness: an encoder whose init count already reached the ceiling 5
has its `H264EncoderError` raised to the caller of `send_image`. -/
theorem C2_witness :
    send_image
      ⟨.client "c" 0 true, fun _ => ⟨.H264, DATA_ERROR_EVENT⟩, some 5, 5,
        false, [], [], [(("c", "ev"), ⟨640, 480, none, 5⟩)], fun _ => [], []⟩
      ⟨0, none, .error "boom", false, []⟩ ⟨480, 640⟩ "ev" .H264 (some 1)
      none none true none
      = .error (.h264EncoderError "boom",
        ⟨.client "c" 0 true, fun _ => ⟨.H264, DATA_ERROR_EVENT⟩, some 5, 5,
          false, [], [], [(("c", "ev"), ⟨640, 480, none, 5⟩)], fun _ => [],
          []⟩) :=
  ((C2_codec_error_recovery
    ⟨.client "c" 0 true, fun _ => ⟨.H264, DATA_ERROR_EVENT⟩, some 5, 5,
      false, [], [], [(("c", "ev"), ⟨640, 480, none, 5⟩)], fun _ => [], []⟩
    "c" 0 true "ev" rfl).2.1)
    ⟨0, none, .error "boom", false, []⟩ ⟨480, 640⟩ (some 1) none true none
    ⟨640, 480, none, 5⟩ "boom" rfl rfl (by decide)

/-- C4. When decoder state exists for the StreamKey and the incoming
timestamp is strictly below the stored `last_timestamp`, an ordering-error
envelope goes to the configured error event and `image_decode` returns
none with no decode attempted (the result does not depend on the decode
oracle) and no decoder mutation; otherwise `last_timestamp` is updated to
the incoming timestamp whatever the decode outcome is. -/
theorem C4_ordering_check (st : ChannelsState) (env : DecodeEnv)
    (data : Envelope) (event : String) (csid : String) (q : Nat)
    (conn : Bool) (dec : H264Decoder) (f : Bytes)
    (hsio : st.sio = .client csid q conn)
    (hf : data.frame = some f)
    (hdec : dict_get (csid, event) st.decoders = some dec) :
    (data.timestamp.getD 0 - dec.last_timestamp < 0 →
      image_decode st env data event none =
        .ok (none, { st with emitted := (Emission.json
          (st.callbacks_info event).error_event
          (error_envelope (data.timestamp.getD 0)
            (older_timestamp_message (data.timestamp.getD 0)
              dec.last_timestamp)) none :: st.emitted) })) ∧
    (¬ data.timestamp.getD 0 - dec.last_timestamp < 0 →
      ∃ (r : Option DecodedRecord) (st2 : ChannelsState)
        (d2 : H264Decoder),
        image_decode st env data event none = .ok (r, st2) ∧
        dict_get (csid, event) st2.decoders = some d2 ∧
        d2.last_timestamp = data.timestamp.getD 0) := by
  constructor
  · intro hlt
    simp [image_decode, image_decode_rest, get_client_eio_sid, hsio, hf,
      hdec, hlt, send_data]
  · intro hge
    cases herr : env.decode_result with
    | error emsg =>
      by_cases hic : dec.init_count < st.recreate_h264_attempts_count
      · exact ⟨none, _,
          H264Decoder.decoder_init
            { dec with last_timestamp := data.timestamp.getD 0 },
          by simp [image_decode, image_decode_rest, get_client_eio_sid,
               hsio, hf, hdec, hge, herr, dict_get, dict_set,
               H264Decoder.get_init_count, hic, send_data]
             rfl,
          by simp [dict_get, dict_set], rfl⟩
      · exact ⟨none, _,
          { dec with last_timestamp := data.timestamp.getD 0 },
          by simp [image_decode, image_decode_rest, get_client_eio_sid,
               hsio, hf, hdec, hge, herr, dict_get, dict_set,
               H264Decoder.get_init_count, hic, send_data]
             rfl,
          by simp [dict_get, dict_set], rfl⟩
    | ok fr =>
      exact ⟨some ⟨fr, data.timestamp.getD 0, data.metadata⟩, _,
        { dec with last_timestamp := data.timestamp.getD 0 },
        by simp [image_decode, image_decode_rest, get_client_eio_sid,
             hsio, hf, hdec, hge, herr, dict_get, dict_set,
             H264Decoder.get_init_count, send_data]
           rfl,
        by simp [dict_get, dict_set], rfl⟩

/-- C4 witness: a frame carrying timestamp 5 against a stored
last_timestamp of 10 is rejected with an ordering-error envelope and no
decoder mutation, whatever the decode oracle would have produced. -/
theorem C4_witness :
    image_decode
      ⟨.client "c" 0 true, fun _ => ⟨.H264, DATA_ERROR_EVENT⟩, some 5, 5,
        false, [], [(("c", "ev"), ⟨640, 480, 10, 0⟩)], [], fun _ => [], []⟩
      ⟨none, .ok [1], .ok [1]⟩
      { timestamp := some 5, frame := some [0] } "ev" none
      = .ok (none,
        ⟨.client "c" 0 true, fun _ => ⟨.H264, DATA_ERROR_EVENT⟩, some 5, 5,
          false, [], [(("c", "ev"), ⟨640, 480, 10, 0⟩)], [], fun _ => [],
          [Emission.json DATA_ERROR_EVENT
            (error_envelope 5 (older_timestamp_message 5 10)) none]⟩) :=
  (C4_ordering_check
    ⟨.client "c" 0 true, fun _ => ⟨.H264, DATA_ERROR_EVENT⟩, some 5, 5,
      false, [], [(("c", "ev"), ⟨640, 480, 10, 0⟩)], [], fun _ => [], []⟩
    ⟨none, .ok [1], .ok [1]⟩ { timestamp := some 5, frame := some [0] }
    "ev" "c" 0 true ⟨640, 480, 10, 0⟩ [0] rfl rfl rfl).1 (by decide)

/-- C3. The claim states that the decoded timestamp sequence is
non-decreasing for every StreamKey regardless of channel type, JPEG
included. The ordering check only runs when a decoder exists for the key,
and decoders exist only for H264 channels: on a JPEG channel a frame with
timestamp 10 and then a frame with timestamp 5 are both decoded and
returned, so the lower timestamp is applied after the higher one. -/
theorem C3_counterexample :
    image_decode
      ⟨.client "c" 0 true, fun _ => ⟨.JPEG, DATA_ERROR_EVENT⟩, some 5, 5,
        false, [], [], [], fun _ => [], []⟩
      ⟨none, .ok [1], .ok [1]⟩
      { timestamp := some 10, frame := some [0] } "ev" none
      = .ok (some ⟨[1], 10, none⟩,
        ⟨.client "c" 0 true, fun _ => ⟨.JPEG, DATA_ERROR_EVENT⟩, some 5, 5,
          false, [], [], [], fun _ => [], []⟩) ∧
    image_decode
      ⟨.client "c" 0 true, fun _ => ⟨.JPEG, DATA_ERROR_EVENT⟩, some 5, 5,
        false, [], [], [], fun _ => [], []⟩
      ⟨none, .ok [1], .ok [1]⟩
      { timestamp := some 5, frame := some [0] } "ev" none
      = .ok (some ⟨[1], 5, none⟩,
        ⟨.client "c" 0 true, fun _ => ⟨.JPEG, DATA_ERROR_EVENT⟩, some 5, 5,
          false, [], [], [], fun _ => [], []⟩) ∧
    (5 : Int) < 10 :=
  ⟨rfl, rfl, by decide⟩

/-- C3 (amended). For every StreamKey that has decoder state (which the
code creates exactly for H264 channels), the decoded-and-returned
timestamps are non-decreasing: a returned record timestamp is at least the
stored `last_timestamp`, which is then updated to it. JPEG streams keep no
timestamp state and the code enforces no ordering for them. -/
theorem C3_h264_monotonic (st st2 : ChannelsState) (env : DecodeEnv)
    (data : Envelope) (event : String) (csid : String) (q : Nat)
    (conn : Bool) (dec : H264Decoder) (rec : DecodedRecord)
    (hsio : st.sio = .client csid q conn)
    (hdec : dict_get (csid, event) st.decoders = some dec)
    (h : image_decode st env data event none = .ok (some rec, st2)) :
    dec.last_timestamp ≤ rec.timestamp ∧
    dict_get (csid, event) st2.decoders =
      some { dec with last_timestamp := rec.timestamp } := by
  cases hf : data.frame with
  | none =>
    simp [image_decode, get_client_eio_sid, hsio, hf, send_data] at h
  | some f =>
    by_cases hlt : data.timestamp.getD 0 - dec.last_timestamp < 0
    · simp [image_decode, image_decode_rest, get_client_eio_sid, hsio, hf,
        hdec, hlt, send_data] at h
    · cases herr : env.decode_result with
      | error emsg =>
        by_cases hic : dec.init_count < st.recreate_h264_attempts_count
        · simp [image_decode, image_decode_rest, get_client_eio_sid, hsio,
            hf, hdec, hlt, herr, dict_get, dict_set,
            H264Decoder.get_init_count, hic, send_data] at h
        · simp [image_decode, image_decode_rest, get_client_eio_sid, hsio,
            hf, hdec, hlt, herr, dict_get, dict_set,
            H264Decoder.get_init_count, hic, send_data] at h
      | ok fr =>
        simp [image_decode, image_decode_rest, get_client_eio_sid, hsio,
          hf, hdec, hlt, herr, dict_get, dict_set] at h
        obtain ⟨hrec, hst2⟩ := h
        subst hst2
        constructor
        · rw [← hrec]
          simp only [DecodedRecord.timestamp]
          omega
        · rw [← hrec]
          simp [dict_get, dict_set]

/-- C3 witness: on an H264 stream whose decoder stores last_timestamp 3, a
successfully decoded frame with timestamp 5 is returned with timestamp 5
at least 3, and the stored last_timestamp becomes 5. -/
theorem C3_witness :
    (3 : Int) ≤ (5 : Int) ∧
    dict_get ("c", "ev")
      [(("c", "ev"), (⟨640, 480, 5, 0⟩ : H264Decoder)),
        (("c", "ev"), ⟨640, 480, 3, 0⟩)] =
      some ⟨640, 480, 5, 0⟩ :=
  C3_h264_monotonic
    ⟨.client "c" 0 true, fun _ => ⟨.H264, DATA_ERROR_EVENT⟩, some 5, 5,
      false, [], [(("c", "ev"), ⟨640, 480, 3, 0⟩)], [], fun _ => [], []⟩
    ⟨.client "c" 0 true, fun _ => ⟨.H264, DATA_ERROR_EVENT⟩, some 5, 5,
      false, [],
      [(("c", "ev"), ⟨640, 480, 5, 0⟩), (("c", "ev"), ⟨640, 480, 3, 0⟩)],
      [], fun _ => [], []⟩
    ⟨none, .ok [1], .ok [1]⟩
    { timestamp := some 5, frame := some [0] } "ev" "c" 0 true
    ⟨640, 480, 3, 0⟩ ⟨[1], 5, none⟩ rfl rfl rfl

/-- C8. On an H264 channel with no decoder yet for the StreamKey, an
envelope missing width or height yields a protocol-error envelope on the
configured error event and none, with no decoder created; and when both
are present but the decoder constructor fails, likewise an error envelope
and none, with no decoder created (client side shown). -/
theorem C8_h264_missing_geometry (st : ChannelsState) (env : DecodeEnv)
    (data : Envelope) (event : String) (csid : String) (q : Nat)
    (conn : Bool) (f : Bytes)
    (hsio : st.sio = .client csid q conn)
    (hf : data.frame = some f)
    (htype : (st.callbacks_info event).type = .H264)
    (hnone : dict_get (csid, event) st.decoders = none) :
    (data.width = none ∨ data.height = none →
      image_decode st env data event none =
        .ok (none, { st with emitted := (Emission.json
          (st.callbacks_info event).error_event
          (error_envelope (data.timestamp.getD 0)
            "Data does not contain width or height, it is mandatory for H.264.")
          none :: st.emitted) })) ∧
    (∀ (w h : Nat) (msg : String), data.width = some w →
      data.height = some h → env.create_error = some msg →
      image_decode st env data event none =
        .ok (none, { st with emitted := (Emission.json
          (st.callbacks_info event).error_event
          (error_envelope (data.timestamp.getD 0)
            ("Cannot create H.264 decoder: " ++ msg)) none ::
          st.emitted) })) := by
  constructor
  · intro hwh
    rcases hwh with hw | hh
    · simp [image_decode, get_client_eio_sid, hsio, hf, htype, hnone, hw,
        send_data]
    · simp [image_decode, get_client_eio_sid, hsio, hf, htype, hnone, hh,
        send_data]
  · intro w h msg hw hh hc
    simp [image_decode, get_client_eio_sid, hsio, hf, htype, hnone, hw,
      hh, hc, send_data]

/-- C8 witness: the first H.264 envelope of a stream without width, and
one with full geometry whose decoder constructor raises, both produce an
error envelope and none, leaving the decoder registry empty. -/
theorem C8_witness :
    image_decode
      ⟨.client "c" 0 true, fun _ => ⟨.H264, DATA_ERROR_EVENT⟩, some 5, 5,
        false, [], [], [], fun _ => [], []⟩
      ⟨none, .ok [1], .ok [1]⟩
      { timestamp := some 4, frame := some [0], height := some 480 }
      "ev" none
      = .ok (none,
        ⟨.client "c" 0 true, fun _ => ⟨.H264, DATA_ERROR_EVENT⟩, some 5, 5,
          false, [], [], [], fun _ => [],
          [Emission.json DATA_ERROR_EVENT
            (error_envelope 4
              "Data does not contain width or height, it is mandatory for H.264.")
            none]⟩) ∧
    image_decode
      ⟨.client "c" 0 true, fun _ => ⟨.H264, DATA_ERROR_EVENT⟩, some 5, 5,
        false, [], [], [], fun _ => [], []⟩
      ⟨some "bad geometry", .ok [1], .ok [1]⟩
      { timestamp := some 4, frame := some [0], width := some 640,
        height := some 480 } "ev" none
      = .ok (none,
        ⟨.client "c" 0 true, fun _ => ⟨.H264, DATA_ERROR_EVENT⟩, some 5, 5,
          false, [], [], [], fun _ => [],
          [Emission.json DATA_ERROR_EVENT
            (error_envelope 4
              "Cannot create H.264 decoder: bad geometry") none]⟩) :=
  ⟨(C8_h264_missing_geometry
      ⟨.client "c" 0 true, fun _ => ⟨.H264, DATA_ERROR_EVENT⟩, some 5, 5,
        false, [], [], [], fun _ => [], []⟩
      ⟨none, .ok [1], .ok [1]⟩
      { timestamp := some 4, frame := some [0], height := some 480 }
      "ev" "c" 0 true [0] rfl rfl rfl rfl).1 (Or.inl rfl),
    (C8_h264_missing_geometry
      ⟨.client "c" 0 true, fun _ => ⟨.H264, DATA_ERROR_EVENT⟩, some 5, 5,
        false, [], [], [], fun _ => [], []⟩
      ⟨some "bad geometry", .ok [1], .ok [1]⟩
      { timestamp := some 4, frame := some [0], width := some 640,
        height := some 480 } "ev" "c" 0 true [0] rfl rfl rfl rfl).2
      640 480 "bad geometry" rfl rfl rfl⟩

/-- C10. An envelope without a timestamp field gets the default value 0
(`channels.py` lines 292-296); hence on a stream whose decoder stores a
positive `last_timestamp`, every timestamp-less frame envelope is rejected
as out of order: the ordering-error envelope (carrying timestamp 0) is
emitted, the frame is not decoded (the result does not depend on the
decode oracle) and none is returned, with no decoder mutation. -/
theorem C10_missing_timestamp_rejected (st : ChannelsState)
    (env : DecodeEnv) (data : Envelope) (event : String) (csid : String)
    (q : Nat) (conn : Bool) (dec : H264Decoder) (f : Bytes)
    (hsio : st.sio = .client csid q conn)
    (hts : data.timestamp = none)
    (hf : data.frame = some f)
    (hdec : dict_get (csid, event) st.decoders = some dec)
    (hpos : 0 < dec.last_timestamp) :
    image_decode st env data event none =
      .ok (none, { st with emitted := (Emission.json
        (st.callbacks_info event).error_event
        (error_envelope 0 (older_timestamp_message 0 dec.last_timestamp))
        none :: st.emitted) }) := by
  have hlt : (0 : Int) - dec.last_timestamp < 0 := by omega
  simp [image_decode, image_decode_rest, get_client_eio_sid, hsio, hf,
    hdec, hts, hlt, hpos, send_data]

/-- C10 witness: a timestamp-less envelope against a stored last_timestamp
of 7 is rejected with an ordering-error envelope carrying the default
timestamp 0, for any decode oracle outcome. -/
theorem C10_witness :
    image_decode
      ⟨.client "c" 0 true, fun _ => ⟨.H264, DATA_ERROR_EVENT⟩, some 5, 5,
        false, [], [(("c", "ev"), ⟨640, 480, 7, 0⟩)], [], fun _ => [], []⟩
      ⟨none, .error "would not matter", .ok [1]⟩
      { frame := some [0] } "ev" none
      = .ok (none,
        ⟨.client "c" 0 true, fun _ => ⟨.H264, DATA_ERROR_EVENT⟩, some 5, 5,
          false, [], [(("c", "ev"), ⟨640, 480, 7, 0⟩)], [], fun _ => [],
          [Emission.json DATA_ERROR_EVENT
            (error_envelope 0 (older_timestamp_message 0 7)) none]⟩) :=
  C10_missing_timestamp_rejected
    ⟨.client "c" 0 true, fun _ => ⟨.H264, DATA_ERROR_EVENT⟩, some 5, 5,
      false, [], [(("c", "ev"), ⟨640, 480, 7, 0⟩)], [], fun _ => [], []⟩
    ⟨none, .error "would not matter", .ok [1]⟩ { frame := some [0] }
    "ev" "c" 0 true ⟨640, 480, 7, 0⟩ [0] rfl rfl rfl rfl (by decide)

/-- C9. LZ4 round trip: for every payload, applying the send-side
transformation (serialize then block-compress, `json_lz4_payload`)
followed by the receive-side transformation (`data_lz4_decode`:
decompress then parse) returns the original value, given the round-trip
contracts of the external serializer and compressor (both are declared
black boxes specified only at their boundary). -/
theorem C9_lz4_roundtrip {α : Type} (dumps : α → Bytes)
    (compress : Bytes → Bytes) (loads : Bytes → Option α)
    (decompress : Bytes → Option Bytes)
    (hcomp : ∀ b, decompress (compress b) = some b)
    (hload : ∀ m, loads (dumps m) = some m) (m : α) :
    data_lz4_decode loads decompress (json_lz4_payload dumps compress m) =
      some m := by
  simp [data_lz4_decode, json_lz4_payload, hcomp, hload]

/-- C9 witness: a concrete serializer (unary encoding) and a concrete
lossless compressor (the identity coding) round-trip the payload 5. -/
theorem C9_witness :
    data_lz4_decode (fun b => some b.length) some
      (json_lz4_payload (fun n => List.replicate n 1) id 5) = some 5 :=
  C9_lz4_roundtrip (fun n => List.replicate n 1) id
    (fun b => some b.length) some (fun b => rfl)
    (fun m => by simp) 5

end Era5G
